import Mathlib

/-!
Verification of the intent-routing and caching core of the Way Academy
chatbot (`src/app.py`).  The Python functions are shallowly embedded as
executable Lean definitions: spreadsheet rows become lists of strings,
Python dicts become association lists whose lookup reads the last
assignment, the `functools.lru_cache(maxsize=1)` slot becomes an explicit
one-entry state, exceptions become `Except`, and the external collaborators
(the Sheets client and the generation backend) become function parameters.
-/

set_option maxRecDepth 100000

deriving instance DecidableEq for Except

/-! ## Python string primitives

The helpers below model the Python string operations the app uses, working
directly on `String.data` so that every concrete evaluation reduces in the
kernel.  `Char.toLower` lowercases the ASCII range; the Cyrillic letters in
the data are left unchanged by it, and every comparison exercised in the
theorems below goes through strings on which this agrees with Python.
-/

/-- Python `needle in haystack` on strings: contiguous substring test. -/
def substr (needle hay : String) : Bool :=
  decide (needle.data <:+: hay.data)

/-- Python `s.strip()` with no argument: drop leading and trailing whitespace. -/
def pyStrip (s : String) : String :=
  ⟨((s.data.dropWhile Char.isWhitespace).reverse.dropWhile Char.isWhitespace).reverse⟩

/-- Python `s.lower()`. -/
def pyLower (s : String) : String :=
  ⟨s.data.map Char.toLower⟩

/-- Python `s.split(sep)` for a one-character separator. -/
def pySplitChar (sep : Char) (s : String) : List String :=
  go s.data []
where
  go : List Char → List Char → List String
    | [], acc => [⟨acc.reverse⟩]
    | c :: cs, acc => if c = sep then ⟨acc.reverse⟩ :: go cs [] else go cs (c :: acc)

/-- Python slicing `s[:n]` (both count code points). -/
def pySlice (s : String) (n : Nat) : String :=
  ⟨s.data.take n⟩

/-- Python `sep.join(parts)`. -/
def pyJoin (sep : String) : List String → String
  | [] => ""
  | [p] => p
  | p :: ps => p ++ sep ++ pyJoin sep ps

/-! ## Records and sheet parsing -/

/-- One spreadsheet row turned into the Python dict `item` of
`get_sheet_data`: the `(header, cell)` pairs in assignment order.  A later
assignment to a duplicated header overwrites the earlier one in the Python
dict, so lookups below read the last matching pair. -/
abbrev Record := List (String × String)

/-- Dict lookup honouring last-assignment-wins. -/
def dictLookup (item : Record) (k : String) : Option String :=
  item.foldl (fun acc p => if p.1 = k then some p.2 else acc) none

/-- Python `item.get(k, dflt)`. -/
def dictGetD (item : Record) (k : String) (dflt : String) : String :=
  (dictLookup item k).getD dflt

/-- Lines 115-122 of `app.py`: zip one data row against the header row.  A row
shorter than the header pads with `""`; cells beyond the header's length are
never read. -/
def buildItem (headers row : List String) : Record :=
  headers.enum.map fun p => (p.2, (row[p.1]?).getD "")

/-- Line 125 of `app.py`: `item.get('is_active', 'True').strip().lower() == 'true'`. -/
def isActive (item : Record) : Bool :=
  decide (pyLower (pyStrip (dictGetD item "is_active" "True")) = "true")

/-- The tabular data the Sheets client hands back (`values` in the source). -/
abbrev Rows := List (List String)

/-- Model of `GoogleSheetsService.get_sheet_data` (lines 98-133), applied to the
outcome the Sheets client produces for this call.  Any exception is caught,
logged and turned into `[]`; otherwise the first row is the header and the
remaining rows become records, keeping only the active ones. -/
def get_sheet_data (fetched : Except String Rows) : List Record :=
  match fetched with
  | .error _ => []
  | .ok [] => []
  | .ok (headers :: rows) => (rows.map (buildItem headers)).filter isActive

/-! ## The `lru_cache` slot -/

/-- Model of `Config.CACHE_TTL` (line 46): declared as the cache lifetime in seconds,
with a "5 minutes" comment — but never read anywhere else in the program. -/
def CACHE_TTL : Nat := 300

/-- The single `functools.lru_cache(maxsize=1)` slot sitting on
`get_cached_data`: at most one memoised `(sheet_name, cache_key)` argument
pair together with its result.  The decorator has no notion of time. -/
abbrev SheetsState := Option ((String × String) × List Record)

/-- Model of `get_cached_data` (lines 93-96) under `@lru_cache(maxsize=1)`.
`fetched` is the outcome the Sheets client would produce if it were
consulted on this call; the returned `Bool` records whether it actually was
(a memo hit never fetches). -/
def get_cached_data (st : SheetsState) (fetched : Except String Rows)
    (sheet_name cache_key : String) : List Record × SheetsState × Bool :=
  match st with
  | some (args, val) =>
    if args = (sheet_name, cache_key) then (val, st, false)
    else
      let v := get_sheet_data fetched
      (v, some ((sheet_name, cache_key), v), true)
  | none =>
    let v := get_sheet_data fetched
    (v, some ((sheet_name, cache_key), v), true)

/-! ## Priorities -/

/-- Exact value `mant / 10 ^ frac` of a decimal literal; models the `float`
Python builds from the numeric `priority` strings (decimals this small
compare exactly). -/
structure DecVal where
  mant : Int
  frac : Nat
deriving Repr, DecidableEq

/-- Comparison of two decimal values by cross-multiplication. -/
def DecVal.leB (a b : DecVal) : Bool :=
  decide (a.mant * 10 ^ b.frac ≤ b.mant * 10 ^ a.frac)

/-- Strict order on the represented values. -/
def DecVal.Lt (a b : DecVal) : Prop :=
  a.mant * 10 ^ b.frac < b.mant * 10 ^ a.frac

/-- Equality of the represented values. -/
def DecVal.Equiv (a b : DecVal) : Prop :=
  a.mant * 10 ^ b.frac = b.mant * 10 ^ a.frac

instance (a b : DecVal) : Decidable (a.Lt b) :=
  inferInstanceAs (Decidable (a.mant * 10 ^ b.frac < b.mant * 10 ^ a.frac))

instance (a b : DecVal) : Decidable (a.Equiv b) :=
  inferInstanceAs (Decidable (a.mant * 10 ^ b.frac = b.mant * 10 ^ a.frac))

/-- Value of a non-empty all-digit character list. -/
def digitsToNat? (cs : List Char) : Option Nat :=
  if cs ≠ [] ∧ cs.all Char.isDigit then
    some (cs.foldl (fun n c => 10 * n + (c.toNat - 48)) 0)
  else none

/-- Python `float(s)` restricted to the decimal literals a `priority` column
carries: optional surrounding whitespace, optional sign, digits with an
optional fractional part (`"1"`, `"1.5"`, `".5"`, `"1."`).  Exponents,
`inf`/`nan` and `_` separators do not occur in this data; they are mapped to
`none` — the model of the `ValueError` every malformed string raises. -/
def pyFloat? (s : String) : Option DecVal :=
  let t := (pyStrip s).data
  let signed : Bool × List Char :=
    match t with
    | '-' :: rest => (true, rest)
    | '+' :: rest => (false, rest)
    | u => (false, u)
  let mag : Option DecVal :=
    match pySplitChar '.' ⟨signed.2⟩ with
    | [a] => (digitsToNat? a.data).map fun n => ⟨n, 0⟩
    | [a, b] =>
      if a.data = [] ∧ b.data = [] then none
      else
        match (if a.data = [] then some 0 else digitsToNat? a.data),
              (if b.data = [] then some 0 else digitsToNat? b.data) with
        | some n, some f => some ⟨(n : Int) * 10 ^ b.data.length + f, b.data.length⟩
        | _, _ => none
    | _ => none
  mag.map fun v => if signed.1 then ⟨-v.mant, v.frac⟩ else v

/-- The sort key `float(x.get('priority', 999))` of line 140: the default is
the number `999` (no parsing happens for it); a present value goes through
`float`, and an unparseable one raises `ValueError` (`none`). -/
def priorityKey (c : Record) : Option DecVal :=
  match dictLookup c "priority" with
  | none => some ⟨999, 0⟩
  | some v => pyFloat? v

/-- Stable insertion: `x` goes after every element whose key is `≤` its own.
Used to model Python `sorted` — timsort is stable, and a stable sort's
output is determined by the key order alone. -/
def insertByKey (key : α → DecVal) (acc : List α) (x : α) : List α :=
  match acc with
  | [] => [x]
  | y :: ys => if (key y).leB (key x) then y :: insertByKey key ys x else x :: y :: ys

/-- Python `sorted(xs, key=key)` as a stable insertion sort. -/
def pySorted (key : α → DecVal) (xs : List α) : List α :=
  xs.foldl (insertByKey key) []

/-- Model of `get_all_courses` (lines 135-140).  CPython's `sorted` materialises every
key before comparing, so a single unparseable `priority` raises `ValueError`
before any output exists — modelled as `Except.error`.  The `Nat` counts
`get_cached_data` invocations. -/
def get_all_courses (st : SheetsState) (fetch : String → Except String Rows) :
    Except String (List Record) × SheetsState × Nat :=
  let r := get_cached_data st (fetch "courses") "courses" "courses_cache"
  if r.1.all fun c => (priorityKey c).isSome then
    (.ok (pySorted (fun c => (priorityKey c).getD ⟨999, 0⟩) r.1), r.2.1, 1)
  else
    (.error "ValueError", r.2.1, 1)

/-- Model of `get_all_faqs` (lines 142-144). -/
def get_all_faqs (st : SheetsState) (fetch : String → Except String Rows) :
    List Record × SheetsState × Nat :=
  let r := get_cached_data st (fetch "faq") "faq" "faq_cache"
  (r.1, r.2.1, 1)

/-! ## Course matching -/

/-- The body of the `for course in courses` loop of `get_course_by_keyword`
(lines 154-170): some pipe-separated keyword is a substring of the message,
or the message is a substring of the course name, or the message equals the
course id (the source lowercases `course_id` twice; `pyLower` is
idempotent, so it is applied once here). -/
def matchesCourse (keyword_lower : String) (course : Record) : Bool :=
  (let keywords := dictGetD course "keywords" ""
   decide (keywords ≠ "") && substr "|" keywords &&
     (pySplitChar '|' keywords).any fun k => substr (pyLower (pyStrip k)) keyword_lower)
  || substr keyword_lower (pyLower (dictGetD course "course_name" ""))
  || decide (keyword_lower = pyLower (dictGetD course "course_id" ""))

/-- Model of `get_course_by_keyword` (lines 146-172): `None` for a blank keyword
(`not keyword or keyword.strip() == ''` is equivalent to the stripped
keyword being empty), otherwise the first course of the priority-sorted list
passing one of the three checks.  A `ValueError` from `get_all_courses`
propagates. -/
def get_course_by_keyword (st : SheetsState) (fetch : String → Except String Rows)
    (keyword : String) : Except String (Option Record) × SheetsState × Nat :=
  if pyStrip keyword = "" then (.ok none, st, 0)
  else
    let keyword_lower := pyStrip (pyLower keyword)
    match get_all_courses st fetch with
    | (.error e, st1, n) => (.error e, st1, n)
    | (.ok courses, st1, n) => (.ok (courses.find? (matchesCourse keyword_lower)), st1, n)

/-! ## Fact assembly (`AIService._format_context`, lines 243-280) -/

/-- The per-course block of the f-string at lines 251-261. -/
def formatCourse (course : Record) : String :=
  "\nНэр: " ++ dictGetD course "course_name" "Тодорхойгүй"
  ++ "\nID: " ++ dictGetD course "course_id" "Тодорхойгүй"
  ++ "\nТайлбар: " ++ pySlice (dictGetD course "description" "") 200 ++ "..."
  ++ "\nБагш: " ++ dictGetD course "teacher" "Тодорхойгүй"
  ++ "\nХугацаа: " ++ dictGetD course "duration" "Тодорхойгүй"
  ++ "\nҮнэ: " ++ dictGetD course "price_full" "Тодорхойгүй"
  ++ "\nEarly Bird: " ++ dictGetD course "price_discount" "Байхгүй"
  ++ " (" ++ dictGetD course "price_discount_until" "" ++ ")"
  ++ "\nЦагийн хуваарь: " ++ dictGetD course "schedule_1" ""
  ++ " " ++ dictGetD course "schedule_2" ""
  ++ "\nТүлхүүр үгс: " ++ dictGetD course "keywords" ""
  ++ "\n---"

/-- The per-FAQ block of the f-string at lines 267-270. -/
def formatFaq (faq : Record) : String :=
  "\nАсуулт: " ++ dictGetD faq "q_keywords" ""
  ++ "\nХариулт: " ++ pySlice (dictGetD faq "answer" "") 150 ++ "..."
  ++ "\n---"

/-- The `context_data` dict handed to the formatter; the webhook always
populates both keys, so they are plain fields here. -/
structure ContextData where
  courses : List Record
  faqs : List Record

/-- The static contact/location block of lines 273-278. -/
def contactBlock : String :=
  "\n=== БУСАД МЭДЭЭЛЭЛ ===\nХаяг: Galaxy Tower, 7 давхар, 705 тоот, Махатма Ганди гудамж\nУтас: 91117577, 99201187\nИмэйл: hello@wayconsulting.io\nАкадемийн онцлог: Салбарын шилдэг багш нар, Бодит төсөл дээр практик, AI-г сургалтад нэвтрүүлсэн"

/-- Model of `AIService._format_context`: the course and FAQ sections appear only when
their lists are non-empty; the contact block is always appended. -/
def _format_context (data : ContextData) : String :=
  pyJoin "\n"
    ((if data.courses ≠ [] then "=== СУРГАЛТУУД ===" :: data.courses.map formatCourse else [])
      ++ (if data.faqs ≠ [] then
            "\n=== ТҮГЭЭМЭЛ АСУУЛТУУД ===" :: data.faqs.map formatFaq
          else [])
      ++ [contactBlock])

/-! ## The webhook (`manychat_webhook`, lines 424-510) -/

/-- The JSON values the webhook payloads exercise: strings and objects. -/
inductive JVal where
  | s : String → JVal
  | o : List (String × JVal) → JVal

/-- Dict lookup on a parsed JSON object (parsed JSON has unique keys). -/
def jget (fields : List (String × JVal)) (k : String) : Option JVal :=
  (fields.find? fun p => decide (p.1 = k)).map (·.2)

/-- Python `k in v`: key lookup on a dict, substring test on a string. -/
def jmem (k : String) (v : JVal) : Bool :=
  match v with
  | .o fields => (jget fields k).isSome
  | .s str => substr k str

/-- Python truthiness of an optional JSON value: `None`, `""` and `{}` are
falsy. -/
def jtruthy (v : Option JVal) : Bool :=
  match v with
  | none => false
  | some (.s str) => decide (str ≠ "")
  | some (.o fields) => !fields.isEmpty

/-- A `.get`/`.strip` receiver must be a dict: `AttributeError` otherwise. -/
def asObj (v : JVal) : Except String (List (String × JVal)) :=
  match v with
  | .o fields => .ok fields
  | .s _ => .error "AttributeError"

/-- A `.strip()` receiver must be a string: `AttributeError` otherwise. -/
def asStr (v : JVal) : Except String String :=
  match v with
  | .s str => .ok str
  | .o _ => .error "AttributeError"

/-- Python `v[k]`: `TypeError` when `v` is a string, `KeyError` when the key
is absent. -/
def jindex (v : JVal) (k : String) : Except String JVal :=
  match v with
  | .s _ => .error "TypeError"
  | .o fields =>
    match jget fields k with
    | some x => .ok x
    | none => .error "KeyError"

/-- The last payload branch (lines 445-448): unknown format, subscriber id
`"unknown"`, message defaulted to the greeting. -/
def extractFallback (d : List (String × JVal)) : Except String (Option JVal × String) := do
  let text ← asStr ((jget d "text").getD ((jget d "message").getD (.s "сайн уу")))
  pure (some (.s "unknown"), pyStrip text)

/-- Lines 436-448: pull `subscriber_id` and the stripped `user_message` out
of the four accepted payload shapes.  `Except.error` models the exceptions
the attribute and index accesses can raise inside the handler's `try`. -/
def extractInbound (d : List (String × JVal)) : Except String (Option JVal × String) :=
  match jget d "subscriber" with
  | some sub => do
    let f ← asObj sub
    let msgObj ← asObj ((jget d "message").getD (.o []))
    let text ← asStr ((jget msgObj "text").getD (.s ""))
    pure (jget f "id", pyStrip text)
  | none =>
  match jget d "subscriber_id" with
  | some sid => do
    let text ← asStr ((jget d "message").getD (.s ""))
    pure (some sid, pyStrip text)
  | none =>
  match jget d "data" with
  | some dv =>
    if jmem "subscriber" dv then do
      let subV ← jindex dv "subscriber"
      let sf ← asObj subV
      let f3 ← asObj ((jget d "data").getD (.o []))
      let text ← asStr ((jget f3 "message").getD (.s ""))
      pure (jget sf "id", pyStrip text)
    else extractFallback d
  | none => extractFallback d

/-- Line 466. -/
def simple_greetings : List String :=
  ["сайн уу", "сайн байна уу", "hello", "hi", "сайн", "байна уу"]

/-- The apology of the handler's `except` branch (lines 505-510). -/
def techErrorText : String :=
  "Уучлаарай, техникийн алдаа гарлаа. Та дахин оролдоно уу эсвэл 91117577 дугаарт залгана уу."

/-- What this development observes of one webhook call: the HTTP status, the
texts under the two response wrappers (`content.messages` and `messages`),
plus two instrumentation fields — how many times `get_cached_data` ran and
whether `get_course_by_keyword` was invoked. -/
structure WebhookOut where
  status : Nat
  contentMessages : List String
  messages : List String
  cachedCalls : Nat
  matchingTried : Bool
deriving Repr, DecidableEq

/-- Model of `manychat_webhook` for an initialised service pair.  `st0` is the
process-wide `lru_cache` slot when the request arrives, `fetch` the Sheets
client, `ai` stands for `AIService.generate_response` — a total function,
since that method catches its own exceptions and substitutes fallback
strings.  `body` is `request.json` (`none` models a JSON `null` body); a
falsy body and a falsy subscriber id return 400 before any processing, any
exception inside the `try` becomes the 500 apology, and the success path
answers 200 with the same single generated text under both wrappers.  The
two 200 arms below mirror the one Python context construction: in the
greeting arm `matched_courses` is `[]`, so `context` falls back to the first
four courses. -/
def manychat_webhook (st0 : SheetsState) (fetch : String → Except String Rows)
    (ai : String → ContextData → String)
    (body : Option (List (String × JVal))) : WebhookOut :=
  match body with
  | none => ⟨400, [], [], 0, false⟩
  | some d =>
    if d.isEmpty then ⟨400, [], [], 0, false⟩
    else
      match extractInbound d with
      | .error _ => ⟨500, [], [techErrorText], 0, false⟩
      | .ok (subscriber_id, m) =>
        if jtruthy subscriber_id = false then ⟨400, [], [], 0, false⟩
        else
          let user_message := if m = "" then "сайн уу" else m
          match get_all_courses st0 fetch with
          | (.error _, _, n1) => ⟨500, [], [techErrorText], n1, false⟩
          | (.ok all_courses, st1, n1) =>
            let faqsR := get_all_faqs st1 fetch
            if simple_greetings.contains (pyLower user_message) then
              let resp := ai user_message ⟨all_courses.take 4, faqsR.1.take 5⟩
              ⟨200, [resp], [resp], n1 + faqsR.2.2, false⟩
            else
              match get_course_by_keyword faqsR.2.1 fetch user_message with
              | (.error _, _, n3) =>
                ⟨500, [], [techErrorText], n1 + faqsR.2.2 + n3, true⟩
              | (.ok found, _, n3) =>
                let matched_courses :=
                  match found with
                  | some c => if c = [] then [] else [c]
                  | none => []
                let resp := ai user_message
                  ⟨if matched_courses ≠ [] then matched_courses else all_courses.take 4,
                   faqsR.1.take 5⟩
                ⟨200, [resp], [resp], n1 + faqsR.2.2 + n3, true⟩

/-! ## Definitions modelled from the spec's words

The two definitions below are deliberately written from the specification,
not from the source: the claims they serve compare the spec's algorithm
against the code's. -/

/-- Modelled from the spec (§4.2): `splitKeywords` — pipe-split, normalised,
non-empty tokens of length greater than one. -/
def splitKeywordsSpec (s : String) : List String :=
  ((pySplitChar '|' s).map fun k => pyLower (pyStrip k)).filter
    fun k => decide (k ≠ "" ∧ 1 < k.length)

/-- Modelled from the spec: the whitespace-separated words of a message,
used for the "at a word boundary, not part of a larger token" test. -/
def specWords (m : String) : List String :=
  (pySplitChar ' ' m).filter fun w => decide (w ≠ "")

/-- Modelled from the spec (claim C1): the match score of a record against a
normalised message — a multi-word keyword awards its word count when it is a
substring of the message, a single-word keyword awards 1 when it occurs as a
whole word. -/
def specMatchScore (m : String) (record : Record) : Nat :=
  (splitKeywordsSpec (dictGetD record "keywords" "")).foldl
    (fun acc k =>
      if substr " " k then
        if substr k m then acc + (specWords k).length else acc
      else
        if (specWords m).contains k then acc + 1 else acc)
    0

/-- Modelled from the spec (claim C2): `is_active` truthiness —
`true`/`1`/`yes`/empty, and absent. -/
def specIsActiveTruthy (v : Option String) : Bool :=
  match v with
  | none => true
  | some s => ["true", "1", "yes", ""].contains s

/-! ## Helper lemmas -/

theorem stringData_append (s t : String) : (s ++ t).data = s.data ++ t.data := rfl

theorem substr_intro {n h : String} (hi : n.data <:+: h.data) : substr n h = true :=
  decide_eq_true hi

theorem substr_elim {n h : String} (hs : substr n h = true) : n.data <:+: h.data :=
  of_decide_eq_true hs

theorem DecVal.leB_of_Lt {a b : DecVal} (h : a.Lt b) : a.leB b = true :=
  decide_eq_true (le_of_lt h)

theorem DecVal.leB_eq_false_of_Lt {a b : DecVal} (h : a.Lt b) : b.leB a = false :=
  decide_eq_false (not_le.mpr h)

theorem DecVal.leB_of_Equiv {a b : DecVal} (h : a.Equiv b) : b.leB a = true :=
  decide_eq_true (le_of_eq h.symm)

/-! ## C1 -/

/-- C1 counterexample.  The spec's scoring rule never selects a record of
score 0, but `get_course_by_keyword` performs no scoring at all: a course
whose keyword field is empty — spec score 0 — is still selected because the
message happens to be a substring of its name. -/
theorem c1_counterexample :
    (get_course_by_keyword none (fun _ => .ok [["course_name"], ["hello world"]]) "hello").1
      = .ok (some [("course_name", "hello world")])
    ∧ specMatchScore "hello" [("course_name", "hello world")] = 0 := by
  constructor <;> decide

/-- C1 amended.  There is no match score: the code returns the first course
of the priority-sorted list for which some pipe-split keyword is a substring
of the message, or the message is a substring of the course name, or the
message equals the course id; consequently every course it ever returns
passes one of those three checks (the corrected form of "a record with
score 0 is never selected"). -/
theorem c1_selected_matches (st : SheetsState) (fetch : String → Except String Rows)
    (kw : String) (r : Record) (st1 : SheetsState) (n : Nat)
    (h : get_course_by_keyword st fetch kw = (.ok (some r), st1, n)) :
    matchesCourse (pyStrip (pyLower kw)) r = true := by
  unfold get_course_by_keyword at h
  by_cases hkw : pyStrip kw = ""
  · simp [hkw] at h
  · rw [if_neg hkw] at h
    rcases hga : get_all_courses st fetch with ⟨res, st', n'⟩
    rw [hga] at h
    cases res with
    | error e => simp at h
    | ok courses =>
      simp only [Prod.mk.injEq, Except.ok.injEq] at h
      exact List.find?_some (by rw [h.1])

/-- C1 witness. -/
theorem c1_witness :
    matchesCourse (pyStrip (pyLower "hello")) [("course_name", "hello world")] = true :=
  c1_selected_matches
    (some (("courses", "courses_cache"), [[("course_name", "hello world")]]))
    (fun _ => .ok []) "hello" [("course_name", "hello world")]
    (some (("courses", "courses_cache"), [[("course_name", "hello world")]])) 1
    (by decide)

/-! ## C2 -/

/-- C2 counterexample.  The spec's truthiness set accepts `"1"`, but the
code keeps a row only when the stripped, lowercased value is exactly
`"true"`: a row with `is_active = "1"` is dropped. -/
theorem c2_counterexample :
    specIsActiveTruthy (some "1") = true
    ∧ get_sheet_data (.ok [["is_active", "course_name"], ["1", "A"]]) = [] := by
  constructor <;> decide

/-- C2 amended.  Exactly the rows whose `is_active` value — defaulting to
`"True"` when the column is absent — strips and lowercases to `"true"`
appear among the records `get_sheet_data` produces (and every accessor the
matcher and the fallback listing use reads through it); `"1"`, `"yes"` and
present-but-empty values are excluded. -/
theorem c2_active_filter (headers : List String) (rows : Rows) (x : Record) :
    x ∈ get_sheet_data (.ok (headers :: rows))
      ↔ (∃ row ∈ rows, buildItem headers row = x) ∧ isActive x = true := by
  simp [get_sheet_data, List.mem_filter, List.mem_map]

/-! ## C3 -/

/-- C3 (code bug).  `get_cached_data` carries no TTL: a second read of the
same sheet — 301 s after the first, beyond `CACHE_TTL` — still returns the
first snapshot and performs no fetch (the `false` component), even though
the source now holds different rows.  `Config.CACHE_TTL` is declared but
never consulted; `functools.lru_cache` never expires an entry. -/
theorem c3_ttl_never_expires :
    CACHE_TTL < 301
    ∧ (get_cached_data
         (get_cached_data none (.ok [["course_name"], ["A"]]) "courses" "courses_cache").2.1
         (.ok [["course_name"], ["B"]]) "courses" "courses_cache")
        = ([[("course_name", "A")]],
           some (("courses", "courses_cache"), [[("course_name", "A")]]), false) := by
  constructor <;> decide

/-! ## C4 -/

/-- C4 counterexample.  A `"courses"` snapshot exists (first read), a
`"faq"` read evicts it (`maxsize=1`), and the next `"courses"` read — whose
fetch fails — returns `[]` rather than the previous snapshot. -/
theorem c4_counterexample :
    (get_cached_data none (.ok [["course_name"], ["A"]]) "courses" "courses_cache").1
      = [[("course_name", "A")]]
    ∧ (get_cached_data
         (get_cached_data
           (get_cached_data none (.ok [["course_name"], ["A"]]) "courses" "courses_cache").2.1
           (.ok [["q_keywords"], ["x"]]) "faq" "faq_cache").2.1
         (.error "HttpError") "courses" "courses_cache").1
      = [] := by
  constructor <;> decide

/-- C4 amended.  When the underlying fetch fails, the read never propagates
the error: either the memo entry for the queried key is still present, in
which case it is returned and no fetch happens at all, or the read returns
the empty list and memoises it as the new snapshot — previously fetched data
is not recovered once its entry was evicted. -/
theorem c4_fetch_error_soft (st : SheetsState) (sheet ckey e : String) :
    (st = some ((sheet, ckey), (get_cached_data st (.error e) sheet ckey).1)
      ∧ (get_cached_data st (.error e) sheet ckey).2.2 = false)
    ∨ ((get_cached_data st (.error e) sheet ckey).1 = []
      ∧ (get_cached_data st (.error e) sheet ckey).2.1 = some ((sheet, ckey), [])
      ∧ (get_cached_data st (.error e) sheet ckey).2.2 = true) := by
  match st with
  | none => right; simp [get_cached_data, get_sheet_data]
  | some (args, val) =>
    by_cases h : args = (sheet, ckey)
    · left; subst h; simp [get_cached_data]
    · right; simp [get_cached_data, h, get_sheet_data]

/-! ## C5 -/

/-- C5 counterexample.  A priority does not default to 999 when
unparseable: `float('abc')` raises `ValueError`, so `get_all_courses` fails
instead of sorting the record in with priority 999. -/
theorem c5_counterexample :
    pyFloat? "abc" = none
    ∧ (get_all_courses none (fun _ => .ok [["priority", "course_name"], ["abc", "A"]])).1
      = .error "ValueError" := by
  constructor <;> decide

/-- C5 amended.  Among matching courses (the code has no match score; both
courses here pass the loop's checks) the one placed first by the
stable ascending-priority sort is selected: a strictly lower parseable
priority wins in either input order, and on exact priority ties the first
record of the input order wins.  Priority defaults to 999 only when the
field is absent; an unparseable value raises (see the counterexample). -/
theorem c5_priority_tiebreak (a b : Record) (fetch : String → Except String Rows)
    (kw : String) (pa pb : DecVal)
    (hkw : pyStrip kw ≠ "")
    (ha : matchesCourse (pyStrip (pyLower kw)) a = true)
    (hb : matchesCourse (pyStrip (pyLower kw)) b = true)
    (hpa : priorityKey a = some pa) (hpb : priorityKey b = some pb)
    (hab : pa.leB pb = true) :
    (get_course_by_keyword (some (("courses", "courses_cache"), [a, b])) fetch kw).1
      = .ok (some a)
    ∧ (pa.Lt pb →
        (get_course_by_keyword (some (("courses", "courses_cache"), [b, a])) fetch kw).1
          = .ok (some a))
    ∧ (pa.Equiv pb →
        (get_course_by_keyword (some (("courses", "courses_cache"), [b, a])) fetch kw).1
          = .ok (some b)) := by
  have hcourses : ∀ l : List Record,
      get_all_courses (some (("courses", "courses_cache"), l)) fetch
        = (if l.all fun c => (priorityKey c).isSome then
             .ok (pySorted (fun c => (priorityKey c).getD ⟨999, 0⟩) l)
           else .error "ValueError",
           some (("courses", "courses_cache"), l), 1) := by
    intro l
    simp [get_all_courses, get_cached_data]
    split <;> rfl
  refine ⟨?_, ?_, ?_⟩
  · unfold get_course_by_keyword
    rw [if_neg hkw, hcourses]
    simp [hpa, hpb, pySorted, insertByKey, hab, List.find?_cons_of_pos _ ha]
  · intro hlt
    unfold get_course_by_keyword
    rw [if_neg hkw, hcourses]
    simp [hpa, hpb, pySorted, insertByKey, DecVal.leB_eq_false_of_Lt hlt,
      List.find?_cons_of_pos _ ha]
  · intro heq
    unfold get_course_by_keyword
    rw [if_neg hkw, hcourses]
    simp [hpa, hpb, pySorted, insertByKey, DecVal.leB_of_Equiv heq,
      List.find?_cons_of_pos _ hb]

/-- C5 witness. -/
theorem c5_witness :
    DecVal.Lt ⟨1, 0⟩ ⟨5, 0⟩
    ∧ (get_course_by_keyword
        (some (("courses", "courses_cache"),
          [[("course_name", "alphabet"), ("priority", "5")],
           [("course_name", "alpha"), ("priority", "1")]]))
        (fun _ => .ok []) "alpha").1
      = .ok (some [("course_name", "alpha"), ("priority", "1")]) :=
  ⟨by decide,
   (c5_priority_tiebreak
      [("course_name", "alpha"), ("priority", "1")]
      [("course_name", "alphabet"), ("priority", "5")]
      (fun _ => .ok []) "alpha" ⟨1, 0⟩ ⟨5, 0⟩
      (by decide) (by decide) (by decide) (by decide) (by decide) (by decide)).2.1
    (by decide)⟩

/-! ## C6 -/

/-- C6 counterexample.  A perfectly parseable payload whose processing hits
an internal failure (here: a course row whose `priority` is unparseable, so
`get_all_courses` raises inside the `try`) is answered with the apology text
under HTTP **500** — a failing status, not the promised success. -/
theorem c6_counterexample :
    (manychat_webhook none (fun _ => .ok [["priority"], ["abc"]]) (fun _ _ => "ok")
        (some [("subscriber_id", .s "u1"), ("message", .s "what is the price")]))
      = ⟨500, [], [techErrorText], 1, false⟩ := by
  decide

/-- C6 amended.  Every webhook response is one of exactly three shapes: 400
with no message (falsy body or falsy subscriber id), 500 with the single
fixed apology (any exception inside the `try`), or 200 with exactly one
generated message repeated under both wrappers.  Internal failures thus do
produce a single apology message, but under HTTP 500, not a success
status. -/
theorem c6_response_statuses (st0 : SheetsState) (fetch : String → Except String Rows)
    (ai : String → ContextData → String) (body : Option (List (String × JVal))) :
    ((manychat_webhook st0 fetch ai body).status = 400
        ∧ (manychat_webhook st0 fetch ai body).messages = []
        ∧ (manychat_webhook st0 fetch ai body).contentMessages = [])
    ∨ ((manychat_webhook st0 fetch ai body).status = 500
        ∧ (manychat_webhook st0 fetch ai body).messages = [techErrorText]
        ∧ (manychat_webhook st0 fetch ai body).contentMessages = [])
    ∨ ((manychat_webhook st0 fetch ai body).status = 200
        ∧ ∃ t, (manychat_webhook st0 fetch ai body).messages = [t]
            ∧ (manychat_webhook st0 fetch ai body).contentMessages = [t]) := by
  unfold manychat_webhook
  repeat' split
  all_goals try simp
  all_goals repeat' split
  all_goals simp

/-! ## C7 -/

/-- C7 counterexample.  An empty message is neither short-circuited nor kept
away from the cache: the handler substitutes the greeting `"сайн уу"`,
performs two `get_cached_data` reads (courses and FAQs), and returns the
generated answer to the substituted greeting — with the identity generator
the reply is literally `"сайн уу"`, not a fixed category prompt. -/
theorem c7_counterexample :
    (manychat_webhook none (fun _ => .ok [["course_name"], ["A"]]) (fun q _ => q)
        (some [("subscriber_id", .s "u1"), ("message", .s "")]))
      = ⟨200, ["сайн уу"], ["сайн уу"], 2, false⟩ := by
  decide

/-- C7 amended.  A missing (or empty) `message` is replaced by the greeting
`"сайн уу"` and is never a hard error; the handler still performs both cache
reads, skips course matching because the greeting is in
`simple_greetings`, and answers 200 with the generated reply built from the
first four courses and first five FAQs. -/
theorem c7_empty_message (st0 : SheetsState) (fetch : String → Except String Rows)
    (ai : String → ContextData → String) (sid : String) (hsid : sid ≠ "")
    (cs : List Record) (st1 : SheetsState)
    (hc : get_all_courses st0 fetch = (.ok cs, st1, 1)) :
    manychat_webhook st0 fetch ai (some [("subscriber_id", JVal.s sid)])
      = ⟨200, [ai "сайн уу" ⟨cs.take 4, (get_all_faqs st1 fetch).1.take 5⟩],
          [ai "сайн уу" ⟨cs.take 4, (get_all_faqs st1 fetch).1.take 5⟩], 2, false⟩ := by
  have hex : extractInbound [("subscriber_id", JVal.s sid)]
      = .ok (some (JVal.s sid), "") := rfl
  have hj : jtruthy (some (JVal.s sid)) = true := by simp [jtruthy, hsid]
  have hgr : pyLower "сайн уу" ∈ simple_greetings := by decide
  have h22 : (get_all_faqs st1 fetch).2.2 = 1 := rfl
  simp [manychat_webhook, hex, hj, hc, hgr, h22]

/-- C7 witness. -/
theorem c7_witness :
    ("u1" : String) ≠ ""
    ∧ manychat_webhook none (fun _ => .ok [["course_name"], ["A"]]) (fun _ _ => "GEN")
        (some [("subscriber_id", JVal.s "u1")])
      = ⟨200, ["GEN"], ["GEN"], 2, false⟩ :=
  ⟨by decide,
   by
    have h := c7_empty_message none (fun _ => .ok [["course_name"], ["A"]])
      (fun _ _ => "GEN") "u1" (by decide) [[("course_name", "A")]]
      (some (("courses", "courses_cache"), [[("course_name", "A")]])) (by decide)
    simpa using h⟩

/-! ## C8 helper lemmas -/

theorem mem_dropWhile_of_mem {α} {p : α → Bool} {c : α} (hc : p c = false) :
    ∀ {l : List α}, c ∈ l → c ∈ l.dropWhile p := by
  intro l h
  induction l with
  | nil => simp at h
  | cons x xs ih =>
    by_cases hx : p x = true
    · rw [List.dropWhile_cons_of_pos hx]
      rcases List.mem_cons.mp h with rfl | h2
      · rw [hx] at hc; simp at hc
      · exact ih h2
    · rw [List.dropWhile_cons_of_neg hx]
      exact h

theorem mem_pyStrip {c : Char} (hw : c.isWhitespace = false) {s : String}
    (h : c ∈ s.data) : c ∈ (pyStrip s).data := by
  show c ∈ ((s.data.dropWhile _).reverse.dropWhile _).reverse
  rw [List.mem_reverse]
  exact mem_dropWhile_of_mem hw (List.mem_reverse.mpr (mem_dropWhile_of_mem hw h))

theorem pyStrip_ne_empty {c : Char} (hw : c.isWhitespace = false) {s : String}
    (h : c ∈ s.data) : pyStrip s ≠ "" := by
  intro he
  have hm := mem_pyStrip hw h
  rw [he] at hm
  simp at hm

theorem mem_pyLower_of_fixed {c : Char} (hfix : c.toLower = c) {s : String}
    (h : c ∈ s.data) : c ∈ (pyLower s).data :=
  List.mem_map.mpr ⟨c, h, hfix⟩

theorem not_greeting_of_colon {s : String} (h : (':' : Char) ∈ s.data) :
    pyLower s ∉ simple_greetings := by
  have hc : (':' : Char) ∈ (pyLower s).data := mem_pyLower_of_fixed (by decide) h
  intro hmem
  simp only [simple_greetings, List.mem_cons, List.not_mem_nil, or_false] at hmem
  rcases hmem with h1 | h1 | h1 | h1 | h1 | h1 <;>
    (rw [h1] at hc; exact absurd hc (by decide))

theorem colon_mem_of_url {m : String} (h : substr "https://example.com" m = true) :
    (':' : Char) ∈ m.data :=
  (substr_elim h).subset (by decide)

/-! ## C8 -/

/-- C8 counterexample.  A message containing `"https://example.com"` is not
short-circuited: course matching runs (`matchingTried = true`, three cache
reads), and the response is whatever the generator produces — here `"GEN"`,
not a fixed "please use text" reply. -/
theorem c8_counterexample :
    (manychat_webhook none (fun _ => .ok [["course_name"], ["A"]]) (fun _ _ => "GEN")
        (some [("subscriber_id", .s "u1"), ("message", .s "see https://example.com now")]))
      = ⟨200, ["GEN"], ["GEN"], 3, true⟩ := by
  decide

/-- C8 amended.  The handler contains no URL detection at all: for every
message containing `"https://example.com"` (under a truthy subscriber id and
a successful course read) the pipeline proceeds to keyword matching exactly
as for any other non-greeting message. -/
theorem c8_url_matching_still_runs (st0 : SheetsState) (fetch : String → Except String Rows)
    (ai : String → ContextData → String) (sid msg : String) (hsid : sid ≠ "")
    (hurl : substr "https://example.com" msg = true)
    (cs : List Record) (st1 : SheetsState)
    (hc : get_all_courses st0 fetch = (.ok cs, st1, 1)) :
    (manychat_webhook st0 fetch ai
        (some [("subscriber_id", JVal.s sid), ("message", JVal.s msg)])).matchingTried
      = true := by
  have hex : extractInbound [("subscriber_id", JVal.s sid), ("message", JVal.s msg)]
      = .ok (some (JVal.s sid), pyStrip msg) := rfl
  have hcolon := colon_mem_of_url hurl
  have hm : pyStrip msg ≠ "" := pyStrip_ne_empty (by decide) hcolon
  have hg : pyLower (pyStrip msg) ∉ simple_greetings :=
    not_greeting_of_colon (mem_pyStrip (by decide) hcolon)
  have hj : jtruthy (some (JVal.s sid)) = true := by simp [jtruthy, hsid]
  simp [manychat_webhook, hex, hj, hc, if_neg hm, hg]
  split <;> rfl

/-- C8 witness. -/
theorem c8_witness :
    substr "https://example.com" "see https://example.com now" = true
    ∧ (manychat_webhook none (fun _ => .ok [["course_name"], ["A"]]) (fun _ _ => "GEN")
        (some [("subscriber_id", JVal.s "u2"),
               ("message", JVal.s "see https://example.com now")])).matchingTried
      = true :=
  ⟨by decide,
   c8_url_matching_still_runs none (fun _ => .ok [["course_name"], ["A"]])
     (fun _ _ => "GEN") "u2" "see https://example.com now" (by decide) (by decide)
     [[("course_name", "A")]]
     (some (("courses", "courses_cache"), [[("course_name", "A")]])) (by decide)⟩

/-! ## C9 -/

/-- C9 counterexample.  The assembler does fabricate values for absent
fields: a course record with no fields at all still produces the non-empty
placeholder `"Тодорхойгүй"` ("unknown") in the fact payload, instead of
omitting the field or leaving it empty. -/
theorem c9_counterexample :
    dictLookup ([] : Record) "course_name" = none
    ∧ substr "\nНэр: Тодорхойгүй" (_format_context ⟨[[]], []⟩) = true := by
  constructor <;> decide

/-- C9 amended.  Course descriptions are truncated to 200 characters and FAQ
answers to 150, each with the `"..."` marker appended (unconditionally, even
when nothing was cut); but absent fields are not omitted: a missing
`course_name` is rendered as the invented placeholder `"Тодорхойгүй"`. -/
theorem c9_truncation_and_placeholder :
    (∀ c : Record,
        substr (pySlice (dictGetD c "description" "") 200 ++ "...") (formatCourse c) = true
        ∧ (dictLookup c "course_name" = none →
            substr "\nНэр: Тодорхойгүй" (formatCourse c) = true))
    ∧ ∀ f : Record,
        substr (pySlice (dictGetD f "answer" "") 150 ++ "...") (formatFaq f) = true := by
  refine ⟨fun c => ⟨?_, ?_⟩, fun f => ?_⟩
  · apply substr_intro
    refine ⟨("\nНэр: " ++ dictGetD c "course_name" "Тодорхойгүй"
        ++ "\nID: " ++ dictGetD c "course_id" "Тодорхойгүй" ++ "\nТайлбар: ").data,
      ("\nБагш: " ++ dictGetD c "teacher" "Тодорхойгүй"
        ++ "\nХугацаа: " ++ dictGetD c "duration" "Тодорхойгүй"
        ++ "\nҮнэ: " ++ dictGetD c "price_full" "Тодорхойгүй"
        ++ "\nEarly Bird: " ++ dictGetD c "price_discount" "Байхгүй"
        ++ " (" ++ dictGetD c "price_discount_until" "" ++ ")"
        ++ "\nЦагийн хуваарь: " ++ dictGetD c "schedule_1" ""
        ++ " " ++ dictGetD c "schedule_2" ""
        ++ "\nТүлхүүр үгс: " ++ dictGetD c "keywords" ""
        ++ "\n---").data, ?_⟩
    simp only [formatCourse, stringData_append, List.append_assoc]
  · intro hnone
    have hd : dictGetD c "course_name" "Тодорхойгүй" = "Тодорхойгүй" := by
      simp [dictGetD, hnone]
    apply substr_intro
    refine ⟨[], ("\nID: " ++ dictGetD c "course_id" "Тодорхойгүй"
        ++ "\nТайлбар: " ++ pySlice (dictGetD c "description" "") 200 ++ "..."
        ++ "\nБагш: " ++ dictGetD c "teacher" "Тодорхойгүй"
        ++ "\nХугацаа: " ++ dictGetD c "duration" "Тодорхойгүй"
        ++ "\nҮнэ: " ++ dictGetD c "price_full" "Тодорхойгүй"
        ++ "\nEarly Bird: " ++ dictGetD c "price_discount" "Байхгүй"
        ++ " (" ++ dictGetD c "price_discount_until" "" ++ ")"
        ++ "\nЦагийн хуваарь: " ++ dictGetD c "schedule_1" ""
        ++ " " ++ dictGetD c "schedule_2" ""
        ++ "\nТүлхүүр үгс: " ++ dictGetD c "keywords" ""
        ++ "\n---").data, ?_⟩
    simp only [formatCourse, hd, stringData_append, List.append_assoc, List.nil_append]
    conv_rhs => rw [← List.append_assoc]
    congr 1
  · apply substr_intro
    refine ⟨("\nАсуулт: " ++ dictGetD f "q_keywords" "" ++ "\nХариулт: ").data,
      ("\n---").data, ?_⟩
    simp only [formatFaq, stringData_append, List.append_assoc]

/-- C9 witness. -/
theorem c9_witness :
    dictLookup ([] : Record) "course_name" = none
    ∧ substr "\nНэр: Тодорхойгүй" (formatCourse []) = true :=
  ⟨by decide, (c9_truncation_and_placeholder.1 []).2 (by decide)⟩

/-! ## C10 -/

/-- C10 confirmed.  The record built from a data row has exactly the
header's column names as its keys, in order; entry `i` pairs the `i`-th
header with the `i`-th cell, defaulting to `""` when the row is shorter;
and cells beyond the header's length never influence the record. -/
theorem c10_header_zip (headers row : List String) :
    (buildItem headers row).map Prod.fst = headers
    ∧ (∀ i : Nat, (buildItem headers row)[i]?
        = headers[i]?.map fun h => (h, row[i]?.getD ""))
    ∧ buildItem headers row = buildItem headers (row.take headers.length) := by
  have hget : ∀ (r : List String) (i : Nat),
      (buildItem headers r)[i]? = headers[i]?.map fun h => (h, r[i]?.getD "") := by
    intro r i
    simp only [buildItem, List.getElem?_map, List.getElem?_enum]
    cases headers[i]? <;> simp
  refine ⟨?_, hget row, ?_⟩
  · simp only [buildItem, List.map_map]
    have h2 : (Prod.fst ∘ fun p : Nat × String => (p.2, (row[p.1]?).getD ""))
        = Prod.snd := rfl
    rw [h2, List.enum_map_snd]
  · apply List.ext_getElem?
    intro i
    rw [hget row i, hget (row.take headers.length) i]
    cases hh : headers[i]? with
    | none => rfl
    | some h =>
      have hi : i < headers.length := by
        rcases List.getElem?_eq_some.mp hh with ⟨hlt, _⟩
        exact hlt
      rw [List.getElem?_take, if_pos hi]
